import Mathlib

/-!
Verification of the flood-prediction dashboard's core logic
(`src/flood_dashboard.py`): the risk-scoring function
`calculate_flood_risk`, the category thresholds, the two parameter
presets, and the synthetic historical-series generator
`generate_historical_data`.  Real-number arithmetic of the source is
embedded over `ℚ`.
-/

namespace FloodDashboard

/-- The eight hydrometeorological inputs of `calculate_flood_risk`
(`src/flood_dashboard.py` lines 60-61), in the source's parameter order. -/
structure ParameterSet where
  pressure : ℚ
  humidity : ℚ
  precipitation : ℚ
  flow_velocity : ℚ
  wind_speed : ℚ
  temperature : ℚ
  sediments : ℚ
  flow_volume : ℚ
deriving DecidableEq, Repr

/-- Line 68: `norm_precipitation = min(precipitation / 200, 1)`. -/
def norm_precipitation (precipitation : ℚ) : ℚ := min (precipitation / 200) 1

/-- Line 69: `norm_humidity = humidity / 100` (no cap). -/
def norm_humidity (humidity : ℚ) : ℚ := humidity / 100

/-- Line 70: `norm_flow_volume = min(flow_volume / 2000, 1)`. -/
def norm_flow_volume (flow_volume : ℚ) : ℚ := min (flow_volume / 2000) 1

/-- Line 71: `norm_flow_velocity = min(flow_velocity / 10, 1)`. -/
def norm_flow_velocity (flow_velocity : ℚ) : ℚ := min (flow_velocity / 10) 1

/-- Line 72: `norm_sediments = min(sediments / 500, 1)`. -/
def norm_sediments (sediments : ℚ) : ℚ := min (sediments / 500) 1

/-- Line 75: `norm_pressure = 1 - max(0, min((pressure - 980) / 40, 1))`. -/
def norm_pressure (pressure : ℚ) : ℚ := 1 - max 0 (min ((pressure - 980) / 40) 1)

/-- Line 76: `norm_wind_speed = min(wind_speed / 80, 1)`. -/
def norm_wind_speed (wind_speed : ℚ) : ℚ := min (wind_speed / 80) 1

/-- Lines 79-84: the piecewise temperature contribution
(`if 26 <= temperature <= 32: 0.8 elif temperature > 32: 0.5
else: max(0, (temperature - 15) / 15)`). -/
def temp_risk (temperature : ℚ) : ℚ :=
  if 26 ≤ temperature ∧ temperature ≤ 32 then 0.8
  else if temperature > 32 then 0.5
  else max 0 ((temperature - 15) / 15)

/-- Weight of precipitation (line 88). -/
def w_precipitation : ℚ := 0.30

/-- Weight of flow_volume (line 89). -/
def w_flow_volume : ℚ := 0.25

/-- Weight of humidity (line 90). -/
def w_humidity : ℚ := 0.15

/-- Weight of flow_velocity (line 91). -/
def w_flow_velocity : ℚ := 0.12

/-- Weight of sediments (line 92). -/
def w_sediments : ℚ := 0.08

/-- Weight of pressure (line 93). -/
def w_pressure : ℚ := 0.05

/-- Weight of wind_speed (line 94). -/
def w_wind_speed : ℚ := 0.03

/-- Weight of temperature (line 95). -/
def w_temperature : ℚ := 0.02

/-- Lines 99-108: the base risk, the weighted sum of the normalized
variables, before any synergy multiplier. -/
def base_risk (p : ParameterSet) : ℚ :=
  norm_precipitation p.precipitation * w_precipitation +
  norm_flow_volume p.flow_volume * w_flow_volume +
  norm_humidity p.humidity * w_humidity +
  norm_flow_velocity p.flow_velocity * w_flow_velocity +
  norm_sediments p.sediments * w_sediments +
  norm_pressure p.pressure * w_pressure +
  norm_wind_speed p.wind_speed * w_wind_speed +
  temp_risk p.temperature * w_temperature

/-- Lines 111-121: the four synergy multipliers applied sequentially to
the base risk, each condition tested on the raw inputs. -/
def risk_with_synergy (p : ParameterSet) : ℚ :=
  let risk := base_risk p
  let risk := if p.precipitation > 100 ∧ p.humidity > 90 then risk * 1.25 else risk
  let risk := if p.flow_volume > 1200 ∧ p.flow_velocity > 5 then risk * 1.3 else risk
  let risk := if p.sediments > 300 ∧ p.flow_volume > 800 then risk * 1.15 else risk
  let risk := if p.pressure < 990 ∧ p.precipitation > 80 then risk * 1.2 else risk
  risk

/-- Line 124: `return min(max(risk * 100, 0), 100)`. -/
def calculate_flood_risk (p : ParameterSet) : ℚ :=
  min (max (risk_with_synergy p * 100) 0) 100

/-- The four risk categories of lines 219-238. -/
inductive Category where
  | LOW
  | MODERATE
  | HIGH
  | CRITICAL
deriving DecidableEq, Repr

/-- Lines 219-238: the category derived from the score
(`if flood_risk < 30 ... elif < 60 ... elif < 80 ... else`). -/
def category (flood_risk : ℚ) : Category :=
  if flood_risk < 30 then Category.LOW
  else if flood_risk < 60 then Category.MODERATE
  else if flood_risk < 80 then Category.HIGH
  else Category.CRITICAL

/-- The declared domains of the eight inputs (spec section 3 and the
slider ranges of lines 168-186): humidity in [0,100] and the
nonnegative physical quantities nonnegative; pressure and temperature
carry no sign constraint. -/
def Valid (p : ParameterSet) : Prop :=
  0 ≤ p.humidity ∧ p.humidity ≤ 100 ∧ 0 ≤ p.precipitation ∧
  0 ≤ p.flow_velocity ∧ 0 ≤ p.wind_speed ∧ 0 ≤ p.sediments ∧ 0 ≤ p.flow_volume

instance (p : ParameterSet) : Decidable (Valid p) :=
  decidable_of_iff
    (0 ≤ p.humidity ∧ p.humidity ≤ 100 ∧ 0 ≤ p.precipitation ∧
     0 ≤ p.flow_velocity ∧ 0 ≤ p.wind_speed ∧ 0 ≤ p.sediments ∧ 0 ≤ p.flow_volume)
    Iff.rfl

/-- The low-risk preset of lines 192-200. -/
def low_risk_preset : ParameterSet :=
  { pressure := 1015, humidity := 60, precipitation := 10, flow_velocity := 1.5,
    wind_speed := 8, temperature := 20, sediments := 30, flow_volume := 200 }

/-- The critical-risk preset of lines 202-210. -/
def critical_risk_preset : ParameterSet :=
  { pressure := 985, humidity := 95, precipitation := 180, flow_velocity := 7.5,
    wind_speed := 55, temperature := 29, sediments := 400, flow_volume := 1800 }

/-- Line 124: the returned score always lands in [0,100], whatever the
pre-clamp risk is. -/
theorem score_bounds (p : ParameterSet) :
    0 ≤ calculate_flood_risk p ∧ calculate_flood_risk p ≤ 100 := by
  unfold calculate_flood_risk
  constructor
  · exact le_min (le_max_right _ _) (by norm_num)
  · exact min_le_right _ _

/-- The regression example of spec section 8: pressure 1000, humidity 83,
precipitation 50, flow velocity 2.0, wind 18, temperature 25,
sediments 50, flow volume 504. -/
def example_params : ParameterSet :=
  { pressure := 1000, humidity := 83, precipitation := 50, flow_velocity := 2,
    wind_speed := 18, temperature := 25, sediments := 50, flow_volume := 504 }

/-- Claim C1: for every valid ParameterSet (each input within its declared
domain), the score returned by calculate_flood_risk lies between 0 and
100 inclusive. -/
theorem C1_score_in_unit_range (p : ParameterSet) (hv : Valid p) :
    0 ≤ calculate_flood_risk p ∧ calculate_flood_risk p ≤ 100 :=
  score_bounds p

/-- Witness for C1 at the regression example of spec section 8. -/
theorem C1_score_in_unit_range_witness :
    Valid example_params ∧
    (0 ≤ calculate_flood_risk example_params ∧
     calculate_flood_risk example_params ≤ 100) :=
  ⟨by decide, C1_score_in_unit_range example_params (by decide)⟩

/-- Claim C4: the category of a score s is LOW iff s < 30, MODERATE iff
30 ≤ s < 60, HIGH iff 60 ≤ s < 80, CRITICAL iff 80 ≤ s, and each exact
boundary score (30, 60, 80) maps to the higher category. -/
theorem C4_category_thresholds :
    (∀ s : ℚ, (category s = Category.LOW ↔ s < 30) ∧
       (category s = Category.MODERATE ↔ 30 ≤ s ∧ s < 60) ∧
       (category s = Category.HIGH ↔ 60 ≤ s ∧ s < 80) ∧
       (category s = Category.CRITICAL ↔ 80 ≤ s)) ∧
    category 30 = Category.MODERATE ∧ category 60 = Category.HIGH ∧
    category 80 = Category.CRITICAL := by
  refine ⟨fun s => ?_, by norm_num [category], by norm_num [category],
    by norm_num [category]⟩
  unfold category
  split_ifs with h1 h2 h3 <;>
    refine ⟨⟨fun hc => ?_, fun hs => ?_⟩, ⟨fun hc => ?_, fun hs => ?_⟩,
      ⟨fun hc => ?_, fun hs => ?_⟩, ⟨fun hc => ?_, fun hs => ?_⟩⟩ <;>
    first
      | rfl
      | exact absurd hc (by decide)
      | linarith
      | exact ⟨by linarith, by linarith⟩

/-- Claim C6: the low-risk preset scores in the LOW category; the
critical-risk preset scores CRITICAL with a score of exactly 100 (within
a few points of 100), and all four synergy conditions hold on it. -/
theorem C6_presets :
    category (calculate_flood_risk low_risk_preset) = Category.LOW ∧
    category (calculate_flood_risk critical_risk_preset) = Category.CRITICAL ∧
    calculate_flood_risk critical_risk_preset = 100 ∧
    (critical_risk_preset.precipitation > 100 ∧ critical_risk_preset.humidity > 90) ∧
    (critical_risk_preset.flow_volume > 1200 ∧ critical_risk_preset.flow_velocity > 5) ∧
    (critical_risk_preset.sediments > 300 ∧ critical_risk_preset.flow_volume > 800) ∧
    (critical_risk_preset.pressure < 990 ∧ critical_risk_preset.precipitation > 80) := by
  refine ⟨?_, ?_, ?_, ?_, ?_, ?_, ?_⟩ <;>
    norm_num [category, calculate_flood_risk, risk_with_synergy, base_risk,
      norm_precipitation, norm_humidity, norm_flow_volume, norm_flow_velocity,
      norm_sediments, norm_pressure, norm_wind_speed, temp_risk,
      w_precipitation, w_flow_volume, w_humidity, w_flow_velocity, w_sediments,
      w_pressure, w_wind_speed, w_temperature, low_risk_preset,
      critical_risk_preset, min_def, max_def]

/-- A parameter set with temperature 32, all other inputs moderate:
no synergy condition holds and the final clamp is not saturated. -/
def temp_step_lo : ParameterSet :=
  { pressure := 1000, humidity := 50, precipitation := 50, flow_velocity := 2,
    wind_speed := 10, temperature := 32, sediments := 50, flow_volume := 500 }

/-- The same parameter set as temp_step_lo with temperature 33. -/
def temp_step_hi : ParameterSet :=
  { temp_step_lo with temperature := 33 }

/-- Claim C10: the score is not monotone in temperature: raising the
temperature from 32 to 33 with the seven other inputs fixed strictly
lowers the score, because the temperature contribution drops from 0.8
to 0.5 across 32. -/
theorem C10_not_monotone_in_temperature :
    temp_step_lo.temperature < temp_step_hi.temperature ∧
    temp_step_hi = { temp_step_lo with temperature := temp_step_hi.temperature } ∧
    calculate_flood_risk temp_step_hi < calculate_flood_risk temp_step_lo := by
  refine ⟨by norm_num [temp_step_lo, temp_step_hi], rfl, ?_⟩
  norm_num [calculate_flood_risk, risk_with_synergy, base_risk,
    norm_precipitation, norm_humidity, norm_flow_volume, norm_flow_velocity,
    norm_sediments, norm_pressure, norm_wind_speed, temp_risk,
    w_precipitation, w_flow_volume, w_humidity, w_flow_velocity, w_sediments,
    w_pressure, w_wind_speed, w_temperature, temp_step_lo, temp_step_hi,
    min_def, max_def]

/-- Claim C7 counterexample: humidity above 100 does not normalize to at
most 1.0: line 69 divides by 100 without a cap, so humidity 150
normalizes to 3/2. -/
theorem C7_humidity_uncapped_counterexample :
    norm_humidity 150 = 3 / 2 ∧ ¬ norm_humidity 150 ≤ 1 := by
  norm_num [norm_humidity]

/-- Claim C7 as amended: the score is a total function whose result is
always in [0,100]; the capped normalizations (precipitation, flow
volume, flow velocity, sediments, wind speed, pressure) never exceed 1
— in particular precipitation 500 normalizes to exactly 1 — but
humidity is divided by 100 with no cap, so humidity 150 normalizes to
3/2 rather than being clamped. -/
theorem C7_amended_total_clamped :
    norm_precipitation 500 = 1 ∧
    (∀ v : ℚ, norm_precipitation v ≤ 1 ∧ norm_flow_volume v ≤ 1 ∧
      norm_flow_velocity v ≤ 1 ∧ norm_sediments v ≤ 1 ∧
      norm_wind_speed v ≤ 1 ∧ norm_pressure v ≤ 1) ∧
    norm_humidity 150 = 3 / 2 ∧
    (∀ p : ParameterSet,
      0 ≤ calculate_flood_risk p ∧ calculate_flood_risk p ≤ 100) := by
  refine ⟨by norm_num [norm_precipitation, min_def], fun v => ?_,
    by norm_num [norm_humidity], score_bounds⟩
  refine ⟨min_le_right _ _, min_le_right _ _, min_le_right _ _,
    min_le_right _ _, min_le_right _ _, ?_⟩
  unfold norm_pressure
  linarith [le_max_left (0 : ℚ) (min ((v - 980) / 40) 1)]

/-- Linear clamp as written in spec section 4.1 for the pressure
normalization. -/
def clamp (x lo hi : ℚ) : ℚ := max lo (min x hi)

/-- Spec section 4.1 steps 1-2 written from the spec's words, for
comparison with base_risk: each variable normalized as step 1 prescribes
(precipitation/200 capped at 1, humidity/100, flow volume/2000 capped,
flow velocity/10 capped, sediments/500 capped, pressure inverted via
1 - clamp((pressure-980)/40, 0, 1), wind/80 capped, temperature
piecewise) and combined with the fixed weights of step 2. -/
def spec_base_risk (p : ParameterSet) : ℚ :=
  min (p.precipitation / 200) 1 * w_precipitation +
  min (p.flow_volume / 2000) 1 * w_flow_volume +
  p.humidity / 100 * w_humidity +
  min (p.flow_velocity / 10) 1 * w_flow_velocity +
  min (p.sediments / 500) 1 * w_sediments +
  (1 - clamp ((p.pressure - 980) / 40) 0 1) * w_pressure +
  min (p.wind_speed / 80) 1 * w_wind_speed +
  (if 26 ≤ p.temperature ∧ p.temperature ≤ 32 then 0.8
   else if 32 < p.temperature then 0.5
   else max 0 ((p.temperature - 15) / 15)) * w_temperature

/-- Claim C2: the base risk before synergy multipliers equals the
weighted sum of the normalized variables exactly as spec section 4.1
prescribes, the eight fixed weights are 0.30, 0.25, 0.15, 0.12, 0.08,
0.05, 0.03, 0.02, and they sum to exactly 1. -/
theorem C2_base_risk_weighted_sum :
    (∀ p : ParameterSet, base_risk p = spec_base_risk p) ∧
    w_precipitation = 0.30 ∧ w_flow_volume = 0.25 ∧ w_humidity = 0.15 ∧
    w_flow_velocity = 0.12 ∧ w_sediments = 0.08 ∧ w_pressure = 0.05 ∧
    w_wind_speed = 0.03 ∧ w_temperature = 0.02 ∧
    w_precipitation + w_flow_volume + w_humidity + w_flow_velocity +
      w_sediments + w_pressure + w_wind_speed + w_temperature = 1 := by
  refine ⟨fun p => rfl, rfl, rfl, rfl, rfl, rfl, rfl, rfl, rfl, ?_⟩
  norm_num [w_precipitation, w_flow_volume, w_humidity, w_flow_velocity,
    w_sediments, w_pressure, w_wind_speed, w_temperature]

/-- The compounded synergy multiplier: the product of the four
conditional factors of lines 111-121, each condition tested on the raw
inputs. -/
def synergy_factor (p : ParameterSet) : ℚ :=
  (if p.precipitation > 100 ∧ p.humidity > 90 then (1.25 : ℚ) else 1) *
  (if p.flow_volume > 1200 ∧ p.flow_velocity > 5 then (1.3 : ℚ) else 1) *
  (if p.sediments > 300 ∧ p.flow_volume > 800 then (1.15 : ℚ) else 1) *
  (if p.pressure < 990 ∧ p.precipitation > 80 then (1.2 : ℚ) else 1)

/-- The sequential multiplications of lines 111-121 amount to
multiplying the base risk by the product of the four conditional
factors. -/
lemma risk_with_synergy_eq (p : ParameterSet) :
    risk_with_synergy p = base_risk p * synergy_factor p := by
  unfold risk_with_synergy synergy_factor
  split_ifs <;> ring

/-- Precipitation 150 with humidity 50: the rain-humidity synergy
condition fails on its humidity conjunct; all other synergy conditions
fail too. -/
def conj_no_humidity : ParameterSet :=
  { pressure := 1000, humidity := 50, precipitation := 150, flow_velocity := 2,
    wind_speed := 10, temperature := 25, sediments := 50, flow_volume := 500 }

/-- The same parameter set with humidity 95, so exactly the
rain-humidity synergy condition holds. -/
def conj_with_humidity : ParameterSet :=
  { conj_no_humidity with humidity := 95 }

/-- Claim C3: the pre-clamp risk equals the base risk times the product
of the four conditional synergy factors, each applied iff both of its
raw-valued conditions hold (conditions tested on raw inputs, factors
compounding multiplicatively); in particular precipitation 150 with
humidity 50 receives no 1.25 multiplier while precipitation 150 with
humidity 95 does. -/
theorem C3_synergy_multipliers :
    (∀ p : ParameterSet, risk_with_synergy p = base_risk p *
      ((if p.precipitation > 100 ∧ p.humidity > 90 then (1.25 : ℚ) else 1) *
       (if p.flow_volume > 1200 ∧ p.flow_velocity > 5 then (1.3 : ℚ) else 1) *
       (if p.sediments > 300 ∧ p.flow_volume > 800 then (1.15 : ℚ) else 1) *
       (if p.pressure < 990 ∧ p.precipitation > 80 then (1.2 : ℚ) else 1))) ∧
    risk_with_synergy conj_no_humidity = base_risk conj_no_humidity ∧
    risk_with_synergy conj_with_humidity = base_risk conj_with_humidity * 1.25 := by
  refine ⟨fun p => risk_with_synergy_eq p, ?_, ?_⟩
  · rw [risk_with_synergy_eq]
    norm_num [synergy_factor, conj_no_humidity]
  · rw [risk_with_synergy_eq]
    norm_num [synergy_factor, conj_with_humidity, conj_no_humidity]

/-- The temperature contribution is never negative. -/
lemma temp_risk_nonneg (t : ℚ) : 0 ≤ temp_risk t := by
  unfold temp_risk
  split_ifs <;> norm_num

/-- The inverted pressure normalization stays nonnegative. -/
lemma norm_pressure_nonneg (x : ℚ) : 0 ≤ norm_pressure x := by
  unfold norm_pressure
  have h : max 0 (min ((x - 980) / 40) 1) ≤ 1 :=
    max_le (by norm_num) (min_le_right _ _)
  linarith

/-- On a valid parameter set every weighted term is nonnegative, so the
base risk is nonnegative. -/
lemma base_risk_nonneg (p : ParameterSet) (hv : Valid p) : 0 ≤ base_risk p := by
  obtain ⟨hh, _, hpr, hfv, hw, hsed, hfq⟩ := hv
  unfold base_risk norm_precipitation norm_humidity norm_flow_volume
    norm_flow_velocity norm_sediments norm_wind_speed
  refine add_nonneg (add_nonneg (add_nonneg (add_nonneg (add_nonneg
    (add_nonneg (add_nonneg ?_ ?_) ?_) ?_) ?_) ?_) ?_) ?_
  · exact mul_nonneg (le_min (div_nonneg hpr (by norm_num)) (by norm_num))
      (by norm_num [w_precipitation])
  · exact mul_nonneg (le_min (div_nonneg hfq (by norm_num)) (by norm_num))
      (by norm_num [w_flow_volume])
  · exact mul_nonneg (div_nonneg hh (by norm_num)) (by norm_num [w_humidity])
  · exact mul_nonneg (le_min (div_nonneg hfv (by norm_num)) (by norm_num))
      (by norm_num [w_flow_velocity])
  · exact mul_nonneg (le_min (div_nonneg hsed (by norm_num)) (by norm_num))
      (by norm_num [w_sediments])
  · exact mul_nonneg (norm_pressure_nonneg _) (by norm_num [w_pressure])
  · exact mul_nonneg (le_min (div_nonneg hw (by norm_num)) (by norm_num))
      (by norm_num [w_wind_speed])
  · exact mul_nonneg (temp_risk_nonneg _) (by norm_num [w_temperature])

/-- The base risk is monotone in precipitation: only the precipitation
term varies and its normalization is monotone. -/
lemma base_risk_mono_precip (q : ParameterSet) {p1 p2 : ℚ} (h : p1 ≤ p2) :
    base_risk { q with precipitation := p1 } ≤
    base_risk { q with precipitation := p2 } := by
  unfold base_risk
  dsimp only
  have hmono : norm_precipitation p1 ≤ norm_precipitation p2 := by
    unfold norm_precipitation
    exact min_le_min (by linarith) le_rfl
  exact add_le_add_right (add_le_add_right (add_le_add_right (add_le_add_right
    (add_le_add_right (add_le_add_right (add_le_add_right
      (mul_le_mul_of_nonneg_right hmono (by norm_num [w_precipitation])) _) _) _)
        _) _) _) _

/-- A conditional factor with value at least 1 is itself at least 1. -/
lemma one_le_ite_factor {c : Prop} [Decidable c] {k : ℚ} (hk : 1 ≤ k) :
    1 ≤ (if c then k else 1) := by
  split_ifs
  · exact hk
  · exact le_rfl

/-- Weakening the condition of a conditional factor of value at least 1
can only raise it. -/
lemma ite_factor_mono {c1 c2 : Prop} [Decidable c1] [Decidable c2] {k : ℚ}
    (hk : 1 ≤ k) (himp : c1 → c2) :
    (if c1 then k else 1) ≤ (if c2 then k else 1) := by
  by_cases h1 : c1
  · rw [if_pos h1, if_pos (himp h1)]
  · rw [if_neg h1]
    split_ifs
    · exact hk
    · exact le_rfl

/-- The compounded synergy multiplier is at least 1. -/
lemma one_le_synergy_factor (p : ParameterSet) : 1 ≤ synergy_factor p := by
  unfold synergy_factor
  split_ifs <;> norm_num

/-- The compounded synergy multiplier is monotone in precipitation: the
two conditions mentioning precipitation are monotone in it and the other
two do not change. -/
lemma synergy_factor_mono_precip (q : ParameterSet) {p1 p2 : ℚ} (h : p1 ≤ p2) :
    synergy_factor { q with precipitation := p1 } ≤
    synergy_factor { q with precipitation := p2 } := by
  unfold synergy_factor
  dsimp only
  have f1 : (if p1 > 100 ∧ q.humidity > 90 then (1.25 : ℚ) else 1) ≤
      (if p2 > 100 ∧ q.humidity > 90 then (1.25 : ℚ) else 1) :=
    ite_factor_mono (by norm_num) (fun hc => ⟨lt_of_lt_of_le hc.1 h, hc.2⟩)
  have f4 : (if q.pressure < 990 ∧ p1 > 80 then (1.2 : ℚ) else 1) ≤
      (if q.pressure < 990 ∧ p2 > 80 then (1.2 : ℚ) else 1) :=
    ite_factor_mono (by norm_num) (fun hc => ⟨hc.1, lt_of_lt_of_le hc.2 h⟩)
  have nA2 : (0 : ℚ) ≤ (if p2 > 100 ∧ q.humidity > 90 then (1.25 : ℚ) else 1) :=
    le_trans zero_le_one (one_le_ite_factor (by norm_num))
  have nB : (0 : ℚ) ≤
      (if q.flow_volume > 1200 ∧ q.flow_velocity > 5 then (1.3 : ℚ) else 1) :=
    le_trans zero_le_one (one_le_ite_factor (by norm_num))
  have nC : (0 : ℚ) ≤
      (if q.sediments > 300 ∧ q.flow_volume > 800 then (1.15 : ℚ) else 1) :=
    le_trans zero_le_one (one_le_ite_factor (by norm_num))
  have nD1 : (0 : ℚ) ≤ (if q.pressure < 990 ∧ p1 > 80 then (1.2 : ℚ) else 1) :=
    le_trans zero_le_one (one_le_ite_factor (by norm_num))
  exact mul_le_mul
    (mul_le_mul_of_nonneg_right (mul_le_mul_of_nonneg_right f1 nB) nC)
    f4 nD1 (mul_nonneg (mul_nonneg nA2 nB) nC)

/-- Claim C5: with the other seven inputs held fixed at valid values,
the score is monotone nondecreasing in precipitation over [0, 200],
including across the precipitation thresholds of the synergy
conditions. -/
theorem C5_monotone_in_precipitation (q : ParameterSet) (p1 p2 : ℚ)
    (hv : Valid { q with precipitation := p1 })
    (h0 : 0 ≤ p1) (h12 : p1 ≤ p2) (h200 : p2 ≤ 200) :
    calculate_flood_risk { q with precipitation := p1 } ≤
    calculate_flood_risk { q with precipitation := p2 } := by
  have hb1 : 0 ≤ base_risk { q with precipitation := p1 } := base_risk_nonneg _ hv
  have hbm : base_risk { q with precipitation := p1 } ≤
      base_risk { q with precipitation := p2 } := base_risk_mono_precip q h12
  have hf1 : 1 ≤ synergy_factor { q with precipitation := p1 } :=
    one_le_synergy_factor _
  have hfm : synergy_factor { q with precipitation := p1 } ≤
      synergy_factor { q with precipitation := p2 } :=
    synergy_factor_mono_precip q h12
  have key : risk_with_synergy { q with precipitation := p1 } ≤
      risk_with_synergy { q with precipitation := p2 } := by
    rw [risk_with_synergy_eq, risk_with_synergy_eq]
    exact mul_le_mul hbm hfm (le_trans zero_le_one hf1) (le_trans hb1 hbm)
  unfold calculate_flood_risk
  exact min_le_min
    (max_le_max (mul_le_mul_of_nonneg_right key (by norm_num)) le_rfl) le_rfl

/-- Witness for C5 at the regression example, raising precipitation from
50 to 150. -/
theorem C5_monotone_in_precipitation_witness :
    (Valid { example_params with precipitation := 50 } ∧
     (0 : ℚ) ≤ 50 ∧ (50 : ℚ) ≤ 150 ∧ (150 : ℚ) ≤ 200) ∧
    calculate_flood_risk { example_params with precipitation := 50 } ≤
      calculate_flood_risk { example_params with precipitation := 150 } :=
  ⟨⟨by decide, by norm_num, by norm_num, by norm_num⟩,
   C5_monotone_in_precipitation example_params 50 150 (by decide)
     (by norm_num) (by norm_num) (by norm_num)⟩

/-- Modelled from the spec: the seeded pseudo-random source behind
generate_historical_data is numpy's global generator, an external
library (not part of this repository) whose draws are deterministic
functions of its state (spec section 3: same seed implies same series).
The state is kept abstract as a natural number: seeding maps a seed to
a state and each distribution draw maps the current state to a value
and a successor state. The deterministic elementwise sine used by the
diurnal and weekly cycles is likewise kept abstract, with sin2pi x
standing for the sine of 2*pi*x. -/
structure NumpySource where
  seedState : Nat → Nat
  gammaDraw : ℚ → ℚ → Nat → ℚ × Nat
  normalDraw : ℚ → ℚ → Nat → ℚ × Nat
  sin2pi : ℚ → ℚ

/-- Draw n values in sequence from a single-draw function, threading the
generator state; models a vectorized numpy sample of size n. -/
def drawN (draw : Nat → ℚ × Nat) : Nat → Nat → List ℚ × Nat
  | 0, s => ([], s)
  | n + 1, s =>
    let v := draw s
    let rest := drawN draw n v.2
    (v.1 :: rest.1, rest.2)

/-- Elementwise clip as in numpy and pandas: the value pushed into
[lo, hi]. -/
def clip (x lo hi : ℚ) : ℚ := min (max x lo) hi

/-- The columns of the table built by generate_historical_data
(lines 129-153); the hourly timestamps are integer seconds. -/
structure HistoricalData where
  fecha : List ℤ
  precipitacion : List ℚ
  temperatura : List ℚ
  humedad : List ℚ
  presion : List ℚ
  viento : List ℚ
  caudal : List ℚ
  riesgo : List ℚ

/-- Lines 129-153: seed the global generator with 42 (line 131), build
the hourly date range ending at the wall-clock anchor now (line 132,
in seconds), draw the six random columns in source order, clip caudal
to [50, 2000] (line 145), and score each row with the fixed
flow velocity 2.0 and sediments 50 (lines 148-151). The incoming
global generator state g0 is overwritten by the reseed; the final
state is returned alongside the table. -/
def generate_historical_data (m : NumpySource) (now : ℤ) (days : Nat)
    (g0 : Nat) : HistoricalData × Nat :=
  let s0 := m.seedState 42
  let n := days * 24
  let fecha := (List.range n).map
    (fun (i : Nat) => now - 3600 * ((n : ℤ) - 1 - (i : ℤ)))
  let pr := drawN (m.gammaDraw 2 15) n s0
  let tn := drawN (m.normalDraw 0 2) n pr.2
  let hn := drawN (m.normalDraw 0 15) n tn.2
  let pn := drawN (m.normalDraw 0 10) n hn.2
  let vn := drawN (m.normalDraw 15 10) n pn.2
  let cn := drawN (m.normalDraw 0 100) n vn.2
  let precipitacion := pr.1
  let temperatura := (List.range n).map
    (fun (i : Nat) => 15 + 10 * m.sin2pi ((i : ℚ) / 24) + tn.1.getD i 0)
  let humedad := hn.1.map (fun x => clip (60 + x) 30 100)
  let presion := pn.1.map (fun x => 1013 + x)
  let viento := vn.1.map (fun x => |x|)
  let caudal := (List.range n).map
    (fun (i : Nat) =>
      clip (300 + 200 * m.sin2pi ((i : ℚ) / 168) + cn.1.getD i 0) 50 2000)
  let riesgo := (List.range n).map (fun i =>
    calculate_flood_risk
      { pressure := presion.getD i 0, humidity := humedad.getD i 0,
        precipitation := precipitacion.getD i 0, flow_velocity := 2,
        wind_speed := viento.getD i 0, temperature := temperatura.getD i 0,
        sediments := 50, flow_volume := caudal.getD i 0 })
  ({ fecha := fecha, precipitacion := precipitacion,
     temperatura := temperatura, humedad := humedad, presion := presion,
     viento := viento, caudal := caudal, riesgo := riesgo }, cn.2)

/-- Claim C8: two calls of the generator with the same days draw from
the freshly reseeded source, so every non-timestamp column is identical
whatever wall-clock anchors and incoming generator states the two calls
see. -/
theorem C8_reproducible (m : NumpySource) (days : Nat) (now1 now2 : ℤ)
    (g1 g2 : Nat) :
    ((generate_historical_data m now1 days g1).1.precipitacion =
      (generate_historical_data m now2 days g2).1.precipitacion) ∧
    ((generate_historical_data m now1 days g1).1.temperatura =
      (generate_historical_data m now2 days g2).1.temperatura) ∧
    ((generate_historical_data m now1 days g1).1.humedad =
      (generate_historical_data m now2 days g2).1.humedad) ∧
    ((generate_historical_data m now1 days g1).1.presion =
      (generate_historical_data m now2 days g2).1.presion) ∧
    ((generate_historical_data m now1 days g1).1.viento =
      (generate_historical_data m now2 days g2).1.viento) ∧
    ((generate_historical_data m now1 days g1).1.caudal =
      (generate_historical_data m now2 days g2).1.caudal) ∧
    ((generate_historical_data m now1 days g1).1.riesgo =
      (generate_historical_data m now2 days g2).1.riesgo) :=
  ⟨rfl, rfl, rfl, rfl, rfl, rfl, rfl⟩

/-- drawN returns exactly n values. -/
lemma drawN_length (draw : Nat → ℚ × Nat) :
    ∀ n s : Nat, ((drawN draw n s).1).length = n := by
  intro n
  induction n with
  | zero => intro s; rfl
  | succ k ih => intro s; simp [drawN, ih]

/-- getD on a mapped range evaluates the mapped function below the
bound. -/
lemma getD_map_range (f : Nat → ℤ) {n i : Nat} (h : i < n) :
    ((List.range n).map f).getD i 0 = f i := by
  have h2 : i < ((List.range n).map f).length := by simpa using h
  rw [List.getD_eq_getElem _ _ h2, List.getElem_map, List.getElem_range]

/-- A trivial deterministic instantiation of the abstract numpy source,
used to witness the generator theorems on concrete inputs. -/
def unitNumpySource : NumpySource where
  seedState := fun s => s
  gammaDraw := fun _ _ s => (1, s + 1)
  normalDraw := fun _ _ s => (0, s + 1)
  sin2pi := fun _ => 0

/-- Claim C9: for every positive days the generated series has exactly
days * 24 rows in every column, and the timestamps advance by exactly
one hour (3600 seconds) between consecutive rows. -/
theorem C9_series_length (m : NumpySource) (now : ℤ) (days : Nat) (g : Nat)
    (hdays : 0 < days) :
    (generate_historical_data m now days g).1.fecha.length = days * 24 ∧
    (generate_historical_data m now days g).1.precipitacion.length = days * 24 ∧
    (generate_historical_data m now days g).1.temperatura.length = days * 24 ∧
    (generate_historical_data m now days g).1.humedad.length = days * 24 ∧
    (generate_historical_data m now days g).1.presion.length = days * 24 ∧
    (generate_historical_data m now days g).1.viento.length = days * 24 ∧
    (generate_historical_data m now days g).1.caudal.length = days * 24 ∧
    (generate_historical_data m now days g).1.riesgo.length = days * 24 ∧
    (∀ i : Nat, i + 1 < days * 24 →
      (generate_historical_data m now days g).1.fecha.getD (i + 1) 0 =
        (generate_historical_data m now days g).1.fecha.getD i 0 + 3600) := by
  refine ⟨?_, ?_, ?_, ?_, ?_, ?_, ?_, ?_, ?_⟩
  · simp [generate_historical_data]
  · simp [generate_historical_data, drawN_length]
  · simp [generate_historical_data]
  · simp [generate_historical_data, drawN_length]
  · simp [generate_historical_data, drawN_length]
  · simp [generate_historical_data, drawN_length]
  · simp [generate_historical_data]
  · simp [generate_historical_data]
  · intro i hi
    have hlt : i < days * 24 := Nat.lt_of_succ_lt hi
    simp only [generate_historical_data]
    rw [getD_map_range _ hi, getD_map_range _ hlt]
    push_cast
    ring

/-- Witness for C9 with the trivial source, one day, anchor 0 and
incoming state 0. -/
theorem C9_series_length_witness :
    0 < 1 ∧
    ((generate_historical_data unitNumpySource 0 1 0).1.fecha.length = 1 * 24 ∧
     (generate_historical_data unitNumpySource 0 1 0).1.precipitacion.length = 1 * 24 ∧
     (generate_historical_data unitNumpySource 0 1 0).1.temperatura.length = 1 * 24 ∧
     (generate_historical_data unitNumpySource 0 1 0).1.humedad.length = 1 * 24 ∧
     (generate_historical_data unitNumpySource 0 1 0).1.presion.length = 1 * 24 ∧
     (generate_historical_data unitNumpySource 0 1 0).1.viento.length = 1 * 24 ∧
     (generate_historical_data unitNumpySource 0 1 0).1.caudal.length = 1 * 24 ∧
     (generate_historical_data unitNumpySource 0 1 0).1.riesgo.length = 1 * 24 ∧
     (∀ i : Nat, i + 1 < 1 * 24 →
       (generate_historical_data unitNumpySource 0 1 0).1.fecha.getD (i + 1) 0 =
         (generate_historical_data unitNumpySource 0 1 0).1.fecha.getD i 0 + 3600)) :=
  ⟨by decide, C9_series_length unitNumpySource 0 1 0 (by decide)⟩

end FloodDashboard
